import Mathlib

/-!
Verification of the static-site preflight/audit tool of this repository.

The repository ships two near-duplicate variants of the tool:
* `scripts/dev-audit.sh` (the comprehensive variant), and
* `scripts/preflight.sh` (the slimmer variant).

Both are linear bash pipelines: parse arguments, run a fixed sequence of
static checks over the site tree, and (in dev mode) spawn a local HTTP
server, poll it for readiness, and smoke-test a fixed list of paths.

The embedding below models:
* the main HTML document as a list of text lines (`List String`),
* the filesystem as a predicate `String → Bool` giving, for exactly the
  path string the script passes to `[ -f ... ]`, whether a regular file
  exists there,
* `grep` pattern matching as executable substring search (the scripts only
  use literal patterns, plus the single bracket expression `[^>]*` which is
  modeled exactly),
* readiness polling as a function of which poll attempts get an HTTP
  connection, and smoke tests as a function of the HTTP status per path,
* the `set -euo pipefail` abort paths the scripts actually have: an
  unprotected command substitution over a pipeline whose `grep`/`find`
  stage exits non-zero kills the script silently with status 1, and both
  scripts spawn the server as `( cmd & ) || true` — a background job
  inside a subshell — so the parent shell's `$!` stays unset and the
  following `DEV_PID=$!` aborts under `set -u` before the readiness loop;
  the spawned server is a detached process whose pid is never captured.

Sleep durations are measured in tenths of a second (deciseconds), so that
`sleep 0.2` contributes 2 and `sleep 0.5` contributes 5.
-/

/-! ## Text matching (grep embedding) -/

/-- Case-insensitive character equality, as used by `grep -i`. -/
def ciEq (a b : Char) : Bool := a.toLower == b.toLower

/-- Case-insensitive list-prefix test. -/
def isPreCI : List Char → List Char → Bool
  | [], _ => true
  | _ :: _, [] => false
  | a :: as, b :: bs => ciEq a b && isPreCI as bs

/-- Case-sensitive list-prefix test. -/
def isPreCS : List Char → List Char → Bool
  | [], _ => true
  | _ :: _, [] => false
  | a :: as, b :: bs => (a == b) && isPreCS as bs

/-- Does line `s` contain the literal pattern `pat`, case-insensitively
(one line of `grep -i pat`)? -/
def containsCI (pat s : String) : Bool :=
  let p := pat.toList
  let t := s.toList
  (List.range (t.length + 1)).any (fun i => isPreCI p (t.drop i))

/-- Does line `s` contain the literal pattern `pat`, case-sensitively
(one line of `grep pat`)? -/
def containsCS (pat s : String) : Bool :=
  let p := pat.toList
  let t := s.toList
  (List.range (t.length + 1)).any (fun i => isPreCS p (t.drop i))

/-- Embedding of `grep -ci pat`: the number of lines of `doc` containing `pat`
case-insensitively.  `grep -c` counts matching LINES, not occurrences. -/
def grepCIc (pat : String) (doc : List String) : Nat :=
  (doc.filter (fun l => containsCI pat l)).length

/-- Embedding of `grep -qi pat`: does any line of `doc` contain `pat` case-insensitively? -/
def grepQI (pat : String) (doc : List String) : Bool :=
  doc.any (fun l => containsCI pat l)

/-- Embedding of `grep -q pat` (case-sensitive). -/
def grepQ (pat : String) (doc : List String) : Bool :=
  doc.any (fun l => containsCS pat l)

/-- Number of case-insensitive occurrences of `pat` in one line
(`grep -io pat | wc -l` restricted to this line; the patterns used never
overlap themselves). -/
def occLineCI (pat s : String) : Nat :=
  let p := pat.toList
  let t := s.toList
  (List.range (t.length + 1)).countP (fun i => isPreCI p (t.drop i))

/-- Case-insensitive occurrence count of `pat` across the whole document;
the patterns used contain no newline, so occurrences never span lines. -/
def occCI (pat : String) (doc : List String) : Nat :=
  (doc.map (fun l => occLineCI pat l)).sum

/-! ## Check result and run-trace types -/

/-- The outcome of one audit check: diagnostic lines it prints (such as
`MISSING:` or `BROKEN:` lists), warning lines, and the fatal failure
message if the check called the fail helper (which exits the script). -/
structure CheckOut where
  notes : List String
  warnings : List String
  failMsg : Option String
deriving Repr, DecidableEq

/-- Result of a check whose body contains an UNPROTECTED command
substitution over a pipeline (no `|| true`): under `set -euo pipefail`,
when the pipeline's `grep`/`find` stage exits non-zero the assignment
fails and the shell aborts silently with status 1.  `abortPipe printed`
records the warning lines the check printed before the failing pipeline;
`done` is a normally completed check. -/
inductive CheckResult where
  | done (c : CheckOut)
  | abortPipe (printed : List String)
deriving Repr, DecidableEq

/-! ## dev-audit.sh: structural check -/

/-- Are the citation-artifact substrings present
(`grep -nE 'oai_citation:|sediment://|file_0000'`, case-sensitive)? -/
def hasCitationArtifacts (doc : List String) : Bool :=
  doc.any (fun l =>
    containsCS "oai_citation:" l || containsCS "sediment://" l || containsCS "file_0000" l)

/-- Function `check_single_document` from dev-audit.sh: requires the
`grep -ci` line counts of the doctype declaration and of the closing
`</html>` tag to equal 1, forbids citation artifacts, and warns when the
END-OF-DOCUMENT guard comment is absent. -/
def check_single_document (doc : List String) : CheckOut :=
  let doctype := grepCIc "<!doctype html" doc
  let htmlend := grepCIc "</html>" doc
  if doctype ≠ 1 then
    ⟨[], [], some ("Expected exactly 1 <!doctype html>, found " ++ toString doctype)⟩
  else if htmlend ≠ 1 then
    ⟨[], [], some ("Expected exactly 1 </html>, found " ++ toString htmlend)⟩
  else if hasCitationArtifacts doc then
    ⟨[], [], some "Found citation artifacts (oai_citation/sediment/file_0000). Remove them from index.html."⟩
  else if !(grepQ "END OF DOCUMENT" doc) then
    ⟨[], ["Missing END-OF-DOCUMENT guard comment. Add: <!-- END OF DOCUMENT: do not paste below this line -->"], none⟩
  else ⟨[], [], none⟩

/-- The structural check of `scripts/preflight.sh` (lines 116-121): the
same two `grep -ci` counts must equal 1; there is no artifact check. -/
def preflight_structural (doc : List String) : CheckOut :=
  let doc_count := grepCIc "<!doctype html" doc
  let end_count := grepCIc "</html>" doc
  if doc_count ≠ 1 then
    ⟨[], [], some ("Expected single doctype, got " ++ toString doc_count)⟩
  else if end_count ≠ 1 then
    ⟨[], [], some ("Expected one closing html tag, got " ++ toString end_count)⟩
  else ⟨[], [], none⟩

/-! ## Argument parsing -/

/-- Result of the argument-parsing `while` loop: either the script has
already exited (printing `out`), or parsing finished with a configuration.
For dev-audit the fields are MODE, PORT, YES, NO_DEV; for preflight they
are MODE, PORT, SHOW_LOGS, TIMEOUT.  Flag variables keep their bash string
values ("0"/"1"). -/
inductive ParseResult where
  | exited (code : Nat) (out : List String)
  | config (mode port flagA flagB : String)
deriving Repr, DecidableEq

/-- The usage text printed by the `-h|--help` branch of dev-audit.sh. -/
def devAuditUsage : List String :=
  ["Usage: bash scripts/dev-audit.sh [--audit|--dev] [--port 3000] [--yes] [--no-dev]",
   "--audit   Run all checks (default)",
   "--dev     Run checks, then start local dev server and smoke-test endpoints",
   "--port    Port for local server (default 3000)",
   "--yes     Non-interactive where possible",
   "--no-dev  Skip starting dev server (useful if you run it elsewhere)"]

/-- The usage text printed by the `usage()` function of preflight.sh. -/
def preflightUsage : List String :=
  ["Static Site Preflight (2026-ready)",
   "Usage:",
   "  bash preflight.sh [options]",
   "Options:",
   "  --audit           Run only audits (default)",
   "  --dev             After audit start local server & smoke tests",
   "  --port <n>        Local server port (default 3000)",
   "  --logs            Print server logs even on successful smoke tests",
   "  --timeout <secs>  Local server readiness timeout (default 12s)",
   "  --help            Show this help"]

/-- The argument loop of dev-audit.sh (lines 53-76).  State threads MODE,
PORT, YES, NO_DEV.  In the `--port` case with no following argument,
`PORT` is set to the empty string by `PORT="${2:-}"`, the case's own
`shift` empties the argument list, and then the loop's trailing `shift`
fails on the empty list; under `set -e` the script exits with status 1
printing nothing.  Unknown arguments hit `fail "Unknown arg: $1"`, which
prints the FAIL line (and no usage text) and exits 1. -/
def devAuditParse (mode port yes noDev : String) : List String → ParseResult
  | [] => .config mode port yes noDev
  | arg :: rest =>
    if arg = "--audit" then devAuditParse "audit" port yes noDev rest
    else if arg = "--dev" then devAuditParse "dev" port yes noDev rest
    else if arg = "--port" then
      match rest with
      | [] => .exited 1 []
      | v :: rest2 => devAuditParse mode v yes noDev rest2
    else if arg = "--yes" then devAuditParse mode port "1" noDev rest
    else if arg = "--no-dev" then devAuditParse mode port yes "1" rest
    else if arg = "-h" ∨ arg = "--help" then .exited 0 devAuditUsage
    else .exited 1 ["FAIL Unknown arg: " ++ arg]

/-- The argument loop of preflight.sh (lines 48-59).  State threads MODE,
PORT, SHOW_LOGS, TIMEOUT.  In the `--port`/`--timeout` cases with no
following argument, expanding the unset `$2` under `set -u` aborts the
script with status 1.  Unknown arguments echo an unknown-arg line, print
the usage text, and exit 1. -/
def preflightParse (mode port showLogs timeout : String) : List String → ParseResult
  | [] => .config mode port showLogs timeout
  | arg :: rest =>
    if arg = "--audit" then preflightParse "audit" port showLogs timeout rest
    else if arg = "--dev" then preflightParse "dev" port showLogs timeout rest
    else if arg = "--port" then
      match rest with
      | [] => .exited 1 []
      | v :: rest2 => preflightParse mode v showLogs timeout rest2
    else if arg = "--logs" then preflightParse mode port "1" timeout rest
    else if arg = "--timeout" then
      match rest with
      | [] => .exited 1 []
      | v :: rest2 => preflightParse mode port showLogs v rest2
    else if arg = "--help" then .exited 0 preflightUsage
    else .exited 1 (("Unknown arg: " ++ arg) :: preflightUsage)

/-! ## Required-file presence checks -/

/-- The `REQ_FILES` manifest of dev-audit.sh (lines 92-115), verbatim. -/
def REQ_FILES : List String :=
  ["index.html", "robots.txt", "sitemap.xml", "site.webmanifest",
   "css/reset.css", "css/tokens.css", "css/base.css", "css/layout.css",
   "css/components.css", "css/effects.css",
   "js/main.js", "js/a11y.js", "js/parallax.js",
   "downloads/jeffrey-plewak-resume.pdf", "downloads/jeffrey-plewak.vcf",
   "assets/favicon.png", "assets/icon-192.png", "assets/icon-512.png",
   "assets/images/og-image.png",
   "assets/images/jeffrey-plewak-portrait.jpg",
   "assets/images/jeffrey-plewak-portrait.webp",
   "assets/images/jeffrey-plewak-portrait.avif"]

/-- The `REQUIRED` manifest of preflight.sh (line 125), verbatim. -/
def PREFLIGHT_REQUIRED : List String :=
  ["robots.txt", "sitemap.xml", "css/base.css", "js/main.js", "assets/favicon.png"]

/-- The loop body of `check_required_files` in dev-audit.sh: print a
`MISSING:` line for every manifest entry that is not a regular file and
raise the `missing` flag; never stop early. -/
def check_required_files_loop (fs : String → Bool) : List String → List String × Bool
  | [] => ([], false)
  | f :: rest =>
    let pr := check_required_files_loop fs rest
    if fs f then pr else (("MISSING: " ++ f) :: pr.1, true)

/-- Function `check_required_files` from dev-audit.sh (lines 138-149): report all
missing manifest entries together, then fail once if any were missing. -/
def check_required_files (fs : String → Bool) : CheckOut :=
  let pr := check_required_files_loop fs REQ_FILES
  ⟨pr.1, [], if pr.2 then some "Missing required files (see list above)" else none⟩

/-- The required-assets loop of preflight.sh (lines 126-128): `log_fail`
exits the script at the FIRST missing entry; later entries are not
examined or reported. -/
def preflight_required_loop (fs : String → Bool) : List String → Option String
  | [] => none
  | f :: rest => if fs f then preflight_required_loop fs rest else some f

/-- The required-files check of preflight.sh, built from its loop. -/
def preflight_required (fs : String → Bool) : CheckOut :=
  ⟨[], [], (preflight_required_loop fs PREFLIGHT_REQUIRED).map (fun f => "Missing required: " ++ f)⟩

/-! ## Internal href/src reference extraction and checks -/

/-- Read an attribute-value body up to the closing double quote.  Returns
the content before the quote and the remainder after it, or `none` when no
closing quote exists (in which case the regex has no match here). -/
def takeRefBody : List Char → Option (List Char × List Char)
  | [] => none
  | c :: rest =>
    if c = '"' then some ([], rest)
    else (takeRefBody rest).map (fun pr => (c :: pr.1, pr.2))

/-- Try to match the regex `(href|src)="/[^"]+"` at the start of `s`
(as `grep -oE` would), already stripped to the path by the `sed`
postprocessing: on success, return the path (starting with `/`) and the
rest of the line after the closing quote. -/
def matchRefAt (s : List Char) : Option (String × List Char) :=
  let tryAnchor := fun (anchor : List Char) =>
    if anchor.isPrefixOf s then
      match s.drop anchor.length with
      | '/' :: body =>
        match takeRefBody body with
        | some (content, rest) =>
          if content = [] then none
          else some (String.mk ('/' :: content), rest)
        | none => none
      | _ => none
    else none
  match tryAnchor "href=\"".toList with
  | some r => some r
  | none => tryAnchor "src=\"".toList

/-- Left-to-right scan of one line for all non-overlapping matches of
`(href|src)="/[^"]+"`, each reduced to its path.  `fuel` bounds the scan
by the line length; every step consumes at least one character. -/
def scanRefsAux : Nat → List Char → List String
  | 0, _ => []
  | _ + 1, [] => []
  | fuel + 1, s =>
    match matchRefAt s with
    | some (path, rest) => path :: scanRefsAux fuel rest
    | none =>
      match s with
      | [] => []
      | _ :: tail => scanRefsAux fuel tail

/-- All absolute href/src reference paths found in one line. -/
def scanRefsLine (l : String) : List String :=
  scanRefsAux l.toList.length l.toList

/-- Byte-order (C-collation) comparison on character lists, as `sort`
uses for the ASCII paths at hand: compare code points left to right. -/
def ltCharList : List Char → List Char → Bool
  | _, [] => false
  | [], _ :: _ => true
  | a :: as, b :: bs =>
    if a.toNat < b.toNat then true
    else if a.toNat = b.toNat then ltCharList as bs
    else false

/-- Byte-order comparison on strings. -/
def strLt (x y : String) : Bool := ltCharList x.toList y.toList

/-- Insert into a sorted duplicate-free list, keeping it sorted and
duplicate-free (one step of `sort -u`). -/
def insertSortedU (x : String) : List String → List String
  | [] => [x]
  | y :: rest =>
    if x = y then y :: rest
    else if strLt x y then x :: y :: rest
    else y :: insertSortedU x rest

/-- Embedding of `sort -u` over a list of lines. -/
def sortU (l : List String) : List String := l.foldr insertSortedU []

/-- The ref-extraction pipeline shared by both scripts:
`grep -oE '(href|src)="/[^"]+"' | sed -E 's/.../\2/' | sort -u`. -/
def extractRefs (doc : List String) : List String :=
  sortU (doc.map scanRefsLine).flatten

/-- The loop body of `check_internal_refs` in dev-audit.sh: print a
`BROKEN:` line for every extracted reference whose target `.$r` is not a
regular file; never stop early. -/
def check_internal_refs_loop (fs : String → Bool) : List String → List String × Bool
  | [] => ([], false)
  | r :: rest =>
    let pr := check_internal_refs_loop fs rest
    if fs ("." ++ r) then pr
    else (("BROKEN: " ++ r ++ " (missing ." ++ r ++ ")") :: pr.1, true)

/-- Function `check_internal_refs` from dev-audit.sh (lines 151-170): the
extraction `refs="$(grep -oE … | sed … | sort -u)"` is an unprotected
substitution under `set -euo pipefail`, so on a document with NO absolute
refs `grep -oE` exits 1 and the script aborts silently with status 1
before any resolution test (`abortPipe`).  Otherwise: collect all broken
references, then fail once if any were broken. -/
def check_internal_refs (doc : List String) (fs : String → Bool) : CheckResult :=
  let refs := extractRefs doc
  if refs = [] then .abortPipe []
  else
    let pr := check_internal_refs_loop fs refs
    .done ⟨pr.1, [], if pr.2 then some "Broken internal asset references (see above)" else none⟩

/-- The internal-refs loop of preflight.sh (lines 134-136): `log_fail`
exits the script at the FIRST broken reference. -/
def preflight_refs_loop (fs : String → Bool) : List String → Option String
  | [] => none
  | r :: rest => if fs ("." ++ r) then preflight_refs_loop fs rest else some r

/-- The internal-refs check of preflight.sh, built from its loop.  The
same unprotected `refs=$(grep -oE … | sed … | sort -u)` (line 133) aborts
the script under pipefail when the document has no absolute refs. -/
def preflight_internal_refs (doc : List String) (fs : String → Bool) : CheckResult :=
  let refs := extractRefs doc
  if refs = [] then .abortPipe []
  else .done ⟨[], [], (preflight_refs_loop fs refs).map (fun r => "Broken ref: " ++ r)⟩

/-! ## SEO checks -/

/-- One line of `grep -qi '<title>.*</title>'`: a `<title>` occurrence
followed, on the same line, by a `</title>` occurrence. -/
def lineTitlePair (l : String) : Bool :=
  let t := l.toList
  (List.range (t.length + 1)).any (fun i =>
    isPreCI "<title>".toList (t.drop i) &&
      (List.range (t.length + 1)).any (fun j =>
        isPreCI "</title>".toList ((t.drop (i + 7)).drop j)))

/-- Function `check_seo_basics` from dev-audit.sh (lines 172-191): title and
description are required (fatal if absent); canonical, robots, Open Graph,
Twitter card and JSON-LD are each a warning if absent. -/
def check_seo_basics (doc : List String) : CheckOut :=
  if !(doc.any lineTitlePair) then ⟨[], [], some "Missing <title>"⟩
  else if !(grepQI "meta name=\"description\"" doc) then
    ⟨[], [], some "Missing meta description"⟩
  else
    let w :=
      (if grepQI "rel=\"canonical\"" doc then [] else ["Missing canonical link"]) ++
      (if grepQI "meta name=\"robots\"" doc then [] else ["Missing robots meta"]) ++
      (if grepQI "property=\"og:title\"" doc then [] else ["Missing og:title"]) ++
      (if grepQI "property=\"og:description\"" doc then [] else ["Missing og:description"]) ++
      (if grepQI "property=\"og:image\"" doc then [] else ["Missing og:image"]) ++
      (if grepQI "name=\"twitter:card\"" doc then [] else ["Missing twitter:card"]) ++
      (if grepQI "application/ld+json" doc then [] else ["Missing JSON-LD schema script"])
    ⟨[], w, none⟩

/-- The SEO check of preflight.sh (lines 140-143): only title and
description are tested, both fatal if absent; there is no canonical-link
(or any other) warning. -/
def preflight_seo (doc : List String) : CheckOut :=
  if !(grepQI "<title>" doc) then ⟨[], [], some "Missing <title>"⟩
  else if !(grepQI "meta name=\"description\"" doc) then
    ⟨[], [], some "Missing meta description"⟩
  else ⟨[], [], none⟩

/-! ## Accessibility, performance, placeholder and config checks -/

/-- Match the regex `<html[^>]*PAT` within a suffix: either `pat` matches
here, or the next character is not `>` and we continue.  This is exactly
the bracket expression `[^>]*` of the scripts' language-attribute grep. -/
def reachNoGT (pat : List Char) : List Char → Bool
  | [] => isPreCI pat []
  | c :: rest => isPreCI pat (c :: rest) || (c ≠ '>' && reachNoGT pat rest)

/-- One line of `grep -qi '<html[^>]*PAT'`. -/
def lineHtmlThen (pat : String) (l : String) : Bool :=
  let t := l.toList
  (List.range (t.length + 1)).any (fun i =>
    isPreCI "<html".toList (t.drop i) && reachNoGT pat.toList (t.drop (i + 5)))

/-- Function `check_accessibility_basics` from dev-audit.sh (lines 193-206):
the language check warns first (protected by `|| warn`), but
`h1count="$(grep -io '<h1' … | wc -l | tr -d ' ')"` is an unprotected
substitution: on a document with no `<h1>` occurrence, `grep -io` exits 1
and pipefail aborts the script after the language warning was printed.
Otherwise single-`<h1>` and images without `alt=` are warnings only. -/
def check_accessibility_basics (doc : List String) : CheckResult :=
  let w1 := if doc.any (lineHtmlThen "lang=\"en\"") then [] else ["Missing lang=\"en\" on <html>"]
  if occCI "<h1" doc = 0 then .abortPipe w1
  else
    let h1count := occCI "<h1" doc
    let w2 := if h1count = 1 then [] else ["Expected 1 <h1>, found " ++ toString h1count]
    let w3 :=
      if doc.any (fun l => containsCS "<img" l && !(containsCS "alt=" l)) then
        ["Found <img> without alt attribute"]
      else []
    .done ⟨[], w1 ++ w2 ++ w3, none⟩

/-- The a11y check of preflight.sh (lines 146-151): same pattern — the
unprotected `h1count=$(grep -io '<h1' … | wc -l | tr -d ' ')` (line 148)
aborts the script under pipefail on a document with no `<h1>`, after the
language warning; otherwise warnings only. -/
def preflight_a11y (doc : List String) : CheckResult :=
  let w1 := if doc.any (lineHtmlThen "lang=") then [] else ["Missing lang attribute"]
  if occCI "<h1" doc = 0 then .abortPipe w1
  else
    let h1count := occCI "<h1" doc
    let w2 := if h1count = 1 then [] else ["Expected 1 H1, found " ++ toString h1count]
    let w3 := if grepQ "alt=" doc then [] else ["Missing alt on images"]
    .done ⟨[], w1 ++ w2 ++ w3, none⟩

/-- Function `check_perf_risks` from dev-audit.sh (lines 208-226):
`large="$(find assets downloads … -size +300k | wc -l | tr -d ' ')"` is an
unprotected substitution, so when `find` exits non-zero (for example
because `assets/` or `downloads/` is absent) pipefail aborts the script:
`largeAssets = none` models that, `some l` the listing `l` it prints on
success.  Both completed-path conditions are warnings only. -/
def check_perf_risks (doc : List String) (largeAssets : Option (List String)) : CheckResult :=
  match largeAssets with
  | none => .abortPipe []
  | some large =>
    let wLarge :=
      if large.length ≠ 0 then
        ["Found " ++ toString large.length ++ " asset(s) >300KB. Consider compressing to reduce LCP."]
      else []
    let heroHasWidth := (doc.filter (fun l => containsCS "class=\"hero-avatar\"" l)).any
      (fun l => containsCS "width=" l)
    let wHero := if heroHasWidth then [] else ["Hero avatar missing explicit width/height (CLS risk)."]
    .done ⟨[], wLarge ++ wHero, none⟩

/-- Function `check_calendly_placeholder` from dev-audit.sh (lines 228-235). -/
def check_calendly_placeholder (doc : List String) : CheckOut :=
  ⟨[], if grepQ "calendly.com/YOUR_HANDLE" doc then
        ["Calendly URL is still placeholder. Replace with your real link."]
      else [], none⟩

/-- The Calendly placeholder line of preflight.sh (line 154). -/
def preflight_calendly (doc : List String) : CheckOut :=
  ⟨[], if grepQ "calendly.com/YOUR_HANDLE" doc then ["Replace Calendly placeholder"] else [], none⟩

/-- Function `check_vercel_config` from dev-audit.sh (lines 237-255): warnings only. -/
def check_vercel_config (fs : String → Bool) : CheckOut :=
  let w1 := if fs "vercel.json" then []
    else ["vercel.json missing (optional for pure static; recommended if you need headers/redirects)."]
  let w2 := if fs "build.sh" then []
    else ["build.sh missing. If Vercel tries to run build.sh, it may fail."]
  let w3 := if fs "package.json" then
      ["package.json present. Ensure it doesn't set a build command that conflicts with static hosting."]
    else []
  ⟨[], w1 ++ w2 ++ w3, none⟩

/-! ## Readiness polling -/

/-- Result of a readiness poll: the 1-based attempt at which the server
first answered, or a timeout.  `sleptDeci` is the total time slept in the
loop, in tenths of a second; `printedLogTail` records whether the script
dumps the server log tail before failing. -/
inductive PollResult where
  | ready (attempt sleptDeci : Nat)
  | timedOut (sleptDeci : Nat) (printedLogTail : Bool)
deriving Repr, DecidableEq

/-- The readiness loop of dev-audit.sh (lines 287-293):
`for i in $(seq 1 30): curl; success => done; sleep 0.2`.  On exhaustion
the script prints the log tail and fails.  `remaining` counts attempts
still allowed, `i` is the current attempt number. -/
def devAuditPollAux (connects : Nat → Bool) : Nat → Nat → PollResult
  | 0, _ => .timedOut 0 true
  | r + 1, i =>
    if connects i then .ready i 0
    else
      match devAuditPollAux connects r (i + 1) with
      | .ready a s => .ready a (s + 2)
      | .timedOut s p => .timedOut (s + 2) p

/-- The full dev-audit readiness poll: 30 attempts at 0.2s intervals
(a fixed bound — dev-audit has no `--timeout` option). -/
def devAuditPoll (connects : Nat → Bool) : PollResult :=
  devAuditPollAux connects 30 1

/-- The readiness loop of preflight.sh (lines 90-95):
`while ! curl: sleep 0.5; t=t+1; [ t -lt TIMEOUT ] || log_fail`.
The counter counts ITERATIONS, not seconds, so the loop gives up after
`timeout` failed attempts, having slept 0.5s each — half the configured
timeout in seconds — and fails WITHOUT printing any log tail.
`remaining = TIMEOUT - t` attempts are still allowed; when `remaining` is
0 or 1 a failed attempt exhausts the loop. -/
def preflightPollAux (connects : Nat → Bool) : Nat → Nat → PollResult
  | remaining, i =>
    if connects i then .ready i 0
    else
      match remaining with
      | 0 => .timedOut 5 false
      | 1 => .timedOut 5 false
      | r + 2 =>
        match preflightPollAux connects (r + 1) (i + 1) with
        | .ready a s => .ready a (s + 5)
        | .timedOut s p => .timedOut (s + 5) p

/-- The full preflight readiness poll with the configured timeout. -/
def preflightPoll (connects : Nat → Bool) (timeout : Nat) : PollResult :=
  preflightPollAux connects timeout 1

/-! ## Server tool selection and smoke tests -/

/-- Outcome of the server-launcher tool selection. -/
inductive StartOutcome where
  | skipped
  | spawned (tool : String)
  | noTool (msg : String)
deriving Repr, DecidableEq

/-- The tool-selection chain of `start_dev_server` in dev-audit.sh
(lines 258-282): `--no-dev` skips; otherwise Vercel CLI if available, else
python3 http.server, else a fatal failure. -/
def devAuditStartTool (noDev : String) (vercel python3 : Bool) : StartOutcome :=
  if noDev = "1" then .skipped
  else if vercel then .spawned "vercel"
  else if python3 then .spawned "python3"
  else .noTool "Neither vercel nor python3 available to run a local server."

/-- The tool-selection chain of `start_server` in preflight.sh
(lines 77-87). -/
def preflightStartTool (vercel python3 : Bool) : StartOutcome :=
  if vercel then .spawned "vercel"
  else if python3 then .spawned "python3"
  else .noTool "No server tool (vercel or python3) found"

/-- The smoke-test list of dev-audit.sh (lines 305-318), verbatim. -/
def devAuditSmokePaths : List String :=
  ["/", "/css/base.css", "/css/layout.css", "/css/components.css",
   "/css/effects.css", "/js/main.js", "/js/a11y.js", "/js/parallax.js",
   "/downloads/jeffrey-plewak-resume.pdf", "/downloads/jeffrey-plewak.vcf",
   "/assets/favicon.png", "/assets/images/og-image.png"]

/-- The smoke-test list of preflight.sh (line 101), verbatim. -/
def preflightSmokePaths : List String :=
  ["/", "/css/base.css", "/js/main.js", "/assets/favicon.png"]

/-- Function `smoke_test_endpoints` from dev-audit.sh (lines 301-328): print the
status code of each path in order; the first status other than 200 is a
fatal failure and later paths are not requested. -/
def smoke_test_endpoints (status : String → Nat) : List String → List String × Option String
  | [] => ([], none)
  | p :: rest =>
    let code := status p
    let line := toString code ++ " " ++ p
    if code = 200 then
      let pr := smoke_test_endpoints status rest
      (line :: pr.1, pr.2)
    else ([line], some ("Smoke test failed for " ++ p ++ " (HTTP " ++ toString code ++ ")"))

/-- Function `smoke_tests` from preflight.sh (lines 99-108): same shape, different
failure message. -/
def preflight_smoke (status : String → Nat) : List String → List String × Option String
  | [] => ([], none)
  | p :: rest =>
    let code := status p
    let line := toString code ++ " " ++ p
    if code = 200 then
      let pr := preflight_smoke status rest
      (line :: pr.1, pr.2)
    else ([line], some ("Smoke failed: " ++ p ++ " -> " ++ toString code))

/-! ## Whole-run model -/

/-- The environment a run sees: the main document's lines, the
filesystem predicate (applied to exactly the path strings the scripts
test with `[ -f ... ]`), availability of the two server tools, the
oversized-asset listing, which poll attempts obtain an HTTP connection,
and the HTTP status the server returns per requested path. -/
structure World where
  index : List String
  fs : String → Bool
  vercel : Bool
  python3 : Bool
  largeAssets : Option (List String)
  connects : Nat → Bool
  status : String → Nat

/-- Observable trace of a whole run.  `exitCode = some c` means the script
exited with status `c`; `none` means it reached the deliberate idle-wait
loop of dev mode.  `checksRun` records whether any audit check executed;
`spawnedTools` lists the server tools actually spawned, in order. -/
structure RunTrace where
  out : List String
  exitCode : Option Nat
  checksRun : Bool
  spawnedTools : List String
  smokeAttempted : Bool
deriving Repr, DecidableEq

/-- The empty starting trace. -/
def trace0 : RunTrace := ⟨[], none, false, [], false⟩

/-- Sequence one audit check into a run trace: skipped if the script has
already exited; otherwise its notes and warnings are printed and a fatal
message ends the run with status 1 (the `fail`/`log_fail` helpers call
`exit 1`). -/
def RunTrace.andCheck (t : RunTrace) (c : CheckOut) : RunTrace :=
  if t.exitCode.isSome then t
  else
    match c.failMsg with
    | some m =>
      { t with out := t.out ++ c.notes ++ c.warnings.map (fun w => "WARN " ++ w) ++ ["FAIL " ++ m],
               exitCode := some 1, checksRun := true }
    | none =>
      { t with out := t.out ++ c.notes ++ c.warnings.map (fun w => "WARN " ++ w),
               checksRun := true }

/-- Sequence a check that can hit a pipefail abort: a completed check is
sequenced as usual; an abort prints the warnings emitted before the
failing pipeline and ends the run silently with status 1 (no FAIL line —
the shell itself dies). -/
def RunTrace.andCheckR (t : RunTrace) (c : CheckResult) : RunTrace :=
  if t.exitCode.isSome then t
  else
    match c with
    | .done c => t.andCheck c
    | .abortPipe printed =>
      { t with out := t.out ++ printed.map (fun w => "WARN " ++ w),
               exitCode := some 1, checksRun := true }

/-- The dev-mode phase of dev-audit.sh (lines 343-349 with
`start_dev_server`): select a server tool and spawn it via
`( cmd & ) || true` — a background job inside a SUBSHELL, which leaves the
parent's `$!` unset — then `DEV_PID=$!` (line 273/278) aborts under
`set -u` with status 1 before the readiness loop ever runs; the detached
server keeps running but is never recorded.  With no tool, `fail` ends
the run with its message.  With `--no-dev` nothing is spawned and the
later completion line `ok "… (pid=$DEV_PID) …"` (line 346) expands the
unset `DEV_PID`, so that path also aborts under `set -u` with status 1.
No path reaches the readiness poll or the smoke tests. -/
def devAuditDevPhase (w : World) (_port noDev : String) (t : RunTrace) : RunTrace :=
  match devAuditStartTool noDev w.vercel w.python3 with
  | .skipped =>
    { t with out := t.out ++ ["WARN --no-dev set; skipping server start"], exitCode := some 1 }
  | .noTool msg => { t with out := t.out ++ ["FAIL " ++ msg], exitCode := some 1 }
  | .spawned tool =>
    { t with spawnedTools := t.spawnedTools ++ [tool], exitCode := some 1 }

/-- The eight checks of dev-audit.sh (lines 334-341), in source order. -/
def devAuditChecksTrace (w : World) : RunTrace :=
  ((((((((trace0.andCheck
    (check_single_document w.index)).andCheck
    (check_required_files w.fs)).andCheckR
    (check_internal_refs w.index w.fs)).andCheck
    (check_seo_basics w.index)).andCheckR
    (check_accessibility_basics w.index)).andCheckR
    (check_perf_risks w.index w.largeAssets)).andCheck
    (check_calendly_placeholder w.index)).andCheck
    (check_vercel_config w.fs))

/-- The run of dev-audit.sh after a successful argument parse: the
index.html existence gate, the eight checks in source order, then either
the audit-complete exit or the dev phase. -/
def devAuditAfterParse (mode port noDev : String) (w : World) : RunTrace :=
  if !(w.fs "index.html") then
    ⟨["FAIL index.html not found at repo root"], some 1, false, [], false⟩
  else
    let t := devAuditChecksTrace w
    if t.exitCode.isSome then t
    else if mode = "dev" then devAuditDevPhase w port noDev t
    else { t with out := t.out ++ ["OK Audit complete"], exitCode := some 0 }

/-- A whole dev-audit.sh run: parse the arguments with the source
defaults (MODE=audit, PORT=3000, YES=0, NO_DEV=0); an early parser exit
runs no check and spawns nothing. -/
def devAuditMain (args : List String) (w : World) : RunTrace :=
  match devAuditParse "audit" "3000" "0" "0" args with
  | .exited c o => ⟨o, some c, false, [], false⟩
  | .config mode port _ noDev => devAuditAfterParse mode port noDev w

/-- The dev-mode phase of preflight.sh (lines 161-166 with
`start_server`): the same subshell-spawn collapse — `( cmd & ) || true`
then `DEV_PID=$!` (line 80/84) aborts under `set -u` with status 1 right
after the spawn, before the readiness loop; no path reaches the poll or
the smoke tests.  With no tool, `log_fail` ends the run with its
message. -/
def preflightDevPhase (w : World) (_timeout : Nat) (t : RunTrace) : RunTrace :=
  match preflightStartTool w.vercel w.python3 with
  | .skipped => t
  | .noTool msg => { t with out := t.out ++ ["FAIL " ++ msg], exitCode := some 1 }
  | .spawned tool =>
    { t with spawnedTools := t.spawnedTools ++ [tool], exitCode := some 1 }

/-- The six checks of preflight.sh (lines 116-154), in source order. -/
def preflightChecksTrace (w : World) : RunTrace :=
  ((((((trace0.andCheck
    (preflight_structural w.index)).andCheck
    (preflight_required w.fs)).andCheckR
    (preflight_internal_refs w.index w.fs)).andCheck
    (preflight_seo w.index)).andCheckR
    (preflight_a11y w.index)).andCheck
    (preflight_calendly w.index))

/-- The run of preflight.sh after a successful argument parse: its six
checks in source order, then either the audit-complete exit or the dev
phase.  The numeric timeout comes from the parsed TIMEOUT string. -/
def preflightAfterParse (mode timeoutStr : String) (w : World) : RunTrace :=
  let t := preflightChecksTrace w
  if t.exitCode.isSome then t
  else if mode = "dev" then preflightDevPhase w (timeoutStr.toNat?.getD 0) t
  else { t with exitCode := some 0 }

/-- A whole preflight.sh run with the source defaults (MODE=audit,
PORT=3000, SHOW_LOGS=0, TIMEOUT=12). -/
def preflightMain (args : List String) (w : World) : RunTrace :=
  match preflightParse "audit" "3000" "0" "12" args with
  | .exited c o => ⟨o, some c, false, [], false⟩
  | .config mode _ _ timeoutStr => preflightAfterParse mode timeoutStr w

/-! ## Process-lifecycle model (cleanup trap) -/

/-- Function `kill_pid` from dev-audit.sh (lines 29-37): `kill -0` probes
liveness; only a live process is signalled (TERM, then KILL).  Calling it
on an already-dead pid changes nothing. -/
def kill_pid (procs : List Nat) (pid : Nat) : List Nat :=
  if pid ∈ procs then procs.filter (fun q => q ≠ pid) else procs

/-- The top-level statements of the tool relevant to the server
lifecycle, in script order.  The spawn is two statements, faithful to
the source: `spawnSubshell` is the `( cmd & ) || true` line and
`assignDevPid` the following `DEV_PID=$!` line. -/
inductive Stmt where
  | armTrap
  | parseArgs
  | runChecks
  | spawnSubshell
  | assignDevPid
  | pollStep
  | smokeStep
  | idleWait
deriving Repr, DecidableEq

/-- Lifecycle state: whether `trap cleanup EXIT INT TERM` has been
registered, the recorded server handle (`DEV_PID`), the alive processes,
the parent shell's `$!` (pid of its most recent DIRECT background job,
unset when it has none), and whether the shell has aborted (`set -u` on
an unset expansion). -/
structure ToolState where
  trapArmed : Bool
  devPid : Option Nat
  procs : List Nat
  lastBg : Option Nat
  aborted : Bool
deriving Repr, DecidableEq

/-- Effect of one top-level statement; `spawnPid` is the pid of the
server process the spawn creates.  `spawnSubshell` backgrounds the
server INSIDE a subshell, so the new process is alive but the PARENT
shell's `$!` (`lastBg`) is not set — the subshell, not the parent,
placed the job in the background.  `assignDevPid` is `DEV_PID=$!`: when
`$!` is unset, `set -u` aborts the shell with an unbound-variable error
(verified against bash), and `DEV_PID` is never assigned. -/
def execStmt (spawnPid : Nat) : Stmt → ToolState → ToolState
  | .armTrap, s => { s with trapArmed := true }
  | .spawnSubshell, s => { s with procs := spawnPid :: s.procs }
  | .assignDevPid, s =>
    match s.lastBg with
    | some p => { s with devPid := some p }
    | none => { s with aborted := true }
  | _, s => s

/-- How a run can end: running off the end, an explicit `fail` call
(`exit 1`), or an external interrupt/termination signal. -/
inductive ExitKind where
  | normal
  | failure
  | signalInt
  | signalTerm
deriving Repr, DecidableEq

/-- Function `cleanup` from dev-audit.sh (lines 39-44): kill the recorded handle
if any. -/
def cleanup (s : ToolState) : ToolState :=
  match s.devPid with
  | some p => { s with procs := kill_pid s.procs p }
  | none => s

/-- What happens at exit: with bash, a trap on EXIT INT TERM fires on
every one of the four exit kinds — but only if it was registered. -/
def onExit (_k : ExitKind) (s : ToolState) : ToolState :=
  if s.trapArmed then cleanup s else s

/-- One guarded step: once the shell has aborted, no further statement
runs (the EXIT trap, if armed, still fires — that is `onExit`). -/
def execStmtGuard (spawnPid : Nat) (st : Stmt) (s : ToolState) : ToolState :=
  if s.aborted then s else execStmt spawnPid st s

/-- Run the first `n` statements from the pristine initial state (no
trap, no `DEV_PID`, no processes, `$!` unset, not aborted). -/
def runPrefix (spawnPid : Nat) (stmts : List Stmt) (n : Nat) : ToolState :=
  (stmts.take n).foldl (fun s st => execStmtGuard spawnPid st s) ⟨false, none, [], none, false⟩

/-- The state after the tool halts via exit kind `k` having executed `n`
statements: every exit path of the run. -/
def haltedRun (spawnPid : Nat) (stmts : List Stmt) (n : Nat) (k : ExitKind) : ToolState :=
  onExit k (runPrefix spawnPid stmts n)

/-- The lifecycle-relevant statement order of dev-audit.sh: the trap is
registered at line 45, before argument parsing, all checks, and any
spawn; the spawn subshell (line 269/271/277) is immediately followed by
`DEV_PID=$!` (line 273/278). -/
def devAuditStmts : List Stmt :=
  [.armTrap, .parseArgs, .runChecks, .spawnSubshell, .assignDevPid,
   .pollStep, .smokeStep, .idleWait]

/-- The lifecycle-relevant statement order of preflight.sh: it registers
no trap anywhere; its spawn subshell (line 79/83) is immediately
followed by `DEV_PID=$!` (line 80/84). -/
def preflightStmts : List Stmt :=
  [.parseArgs, .runChecks, .spawnSubshell, .assignDevPid,
   .pollStep, .smokeStep, .idleWait]

/-! ## C4 theorems -/

/-- C4: the structural check passes if and only if exactly one LINE matches
the doctype pattern, exactly one line matches the closing tag, and (in the
dev-audit variant) no citation artifact is present.  The counts compared to
1 are `grep -ci` line counts, not occurrence counts. -/
theorem structural_check_passes_iff_unit_line_counts (doc : List String) :
    ((check_single_document doc).failMsg = none ↔
      grepCIc "<!doctype html" doc = 1 ∧ grepCIc "</html>" doc = 1 ∧
        hasCitationArtifacts doc = false)
    ∧ ((preflight_structural doc).failMsg = none ↔
      grepCIc "<!doctype html" doc = 1 ∧ grepCIc "</html>" doc = 1) := by
  constructor
  · unfold check_single_document
    by_cases h1 : grepCIc "<!doctype html" doc = 1 <;>
      by_cases h2 : grepCIc "</html>" doc = 1 <;>
        by_cases h3 : hasCitationArtifacts doc = true <;>
          by_cases h4 : grepQ "END OF DOCUMENT" doc = true <;>
            simp_all
  · unfold preflight_structural
    by_cases h1 : grepCIc "<!doctype html" doc = 1 <;>
      by_cases h2 : grepCIc "</html>" doc = 1 <;> simp_all

/-- A document holding two doctype declarations on the same line. -/
def twoDoctypesOneLine : List String :=
  ["<!doctype html><!doctype html>", "</html>"]

/-- C4 counterexample: this document contains two doctype declarations, yet
both variants' structural checks pass, because `grep -ci` counts matching
lines and both declarations sit on one line.  The claim, which demands
failure for any doctype count other than one, is false on this input. -/
theorem structural_check_accepts_two_doctypes_on_one_line :
    occCI "<!doctype html" twoDoctypesOneLine = 2 ∧
    (check_single_document twoDoctypesOneLine).failMsg = none ∧
    (preflight_structural twoDoctypesOneLine).failMsg = none := by decide

/-! ## C1 theorem: cleanup trap never receives the server's pid -/

/-- C1 (code bug): the cleanup apparatus is armed as the claim says —
the trap is registered before the spawn and `kill_pid` is idempotent —
but the guarantee it was built for does not hold.  The spawn backgrounds
the server inside a subshell, so the parent's `$!` stays unset: on every
run `DEV_PID` is never assigned (it stays unset on every prefix and exit
path), the script aborts at `DEV_PID=$!` under `set -u`, and on every
exit path after the spawn the detached server is still alive when the
tool has exited — in the dev-audit variant despite the armed trap, and
in the preflight variant, which registers no trap at all. -/
theorem devaudit_server_survives_every_exit_path :
    devAuditStmts.indexOf Stmt.armTrap < devAuditStmts.indexOf Stmt.spawnSubshell
    ∧ Stmt.armTrap ∉ preflightStmts
    ∧ (∀ (pid n : Nat) (k : ExitKind), (haltedRun pid devAuditStmts n k).devPid = none)
    ∧ (∀ pid : Nat, (runPrefix pid devAuditStmts 5).aborted = true)
    ∧ (∀ (pid n : Nat) (k : ExitKind), pid ∈ (haltedRun pid devAuditStmts (n + 4) k).procs)
    ∧ (∀ (pid n : Nat) (k : ExitKind), pid ∈ (haltedRun pid preflightStmts (n + 3) k).procs)
    ∧ (∀ (procs : List Nat) (pid : Nat),
        kill_pid (kill_pid procs pid) pid = kill_pid procs pid) := by
  refine ⟨by decide, by decide, ?_, ?_, ?_, ?_, ?_⟩
  · intro pid n k
    rcases n with _ | _ | _ | _ | _ | _ | _ | _ | n
    · simp [haltedRun, runPrefix, devAuditStmts, onExit]
    · simp [haltedRun, runPrefix, devAuditStmts, execStmtGuard, execStmt, onExit, cleanup]
    · simp [haltedRun, runPrefix, devAuditStmts, execStmtGuard, execStmt, onExit, cleanup]
    · simp [haltedRun, runPrefix, devAuditStmts, execStmtGuard, execStmt, onExit, cleanup]
    · simp [haltedRun, runPrefix, devAuditStmts, execStmtGuard, execStmt, onExit, cleanup]
    · simp [haltedRun, runPrefix, devAuditStmts, execStmtGuard, execStmt, onExit, cleanup]
    · simp [haltedRun, runPrefix, devAuditStmts, execStmtGuard, execStmt, onExit, cleanup]
    · simp [haltedRun, runPrefix, devAuditStmts, execStmtGuard, execStmt, onExit, cleanup]
    · have htake : devAuditStmts.take (n + 8) = devAuditStmts :=
        List.take_of_length_le (by simp [devAuditStmts])
      simp [haltedRun, runPrefix, htake, devAuditStmts, execStmtGuard, execStmt, onExit, cleanup]
  · intro pid
    simp [runPrefix, devAuditStmts, execStmtGuard, execStmt]
  · intro pid n k
    rcases n with _ | _ | _ | _ | n
    · simp [haltedRun, runPrefix, devAuditStmts, execStmtGuard, execStmt, onExit, cleanup]
    · simp [haltedRun, runPrefix, devAuditStmts, execStmtGuard, execStmt, onExit, cleanup]
    · simp [haltedRun, runPrefix, devAuditStmts, execStmtGuard, execStmt, onExit, cleanup]
    · simp [haltedRun, runPrefix, devAuditStmts, execStmtGuard, execStmt, onExit, cleanup]
    · have htake : devAuditStmts.take (n + 4 + 4) = devAuditStmts :=
        List.take_of_length_le (by simp [devAuditStmts])
      simp [haltedRun, runPrefix, htake, devAuditStmts, execStmtGuard, execStmt, onExit, cleanup]
  · intro pid n k
    rcases n with _ | _ | _ | _ | n
    · simp [haltedRun, runPrefix, preflightStmts, execStmtGuard, execStmt, onExit, cleanup]
    · simp [haltedRun, runPrefix, preflightStmts, execStmtGuard, execStmt, onExit, cleanup]
    · simp [haltedRun, runPrefix, preflightStmts, execStmtGuard, execStmt, onExit, cleanup]
    · simp [haltedRun, runPrefix, preflightStmts, execStmtGuard, execStmt, onExit, cleanup]
    · have htake : preflightStmts.take (n + 4 + 3) = preflightStmts :=
        List.take_of_length_le (by simp [preflightStmts])
      simp [haltedRun, runPrefix, htake, preflightStmts, execStmtGuard, execStmt, onExit, cleanup]
  · intro procs pid
    unfold kill_pid
    by_cases h : pid ∈ procs
    · simp only [if_pos h]
      have hnot : pid ∉ procs.filter (fun q => q ≠ pid) := by
        intro hmem
        have := List.of_mem_filter hmem
        simp at this
      simp [if_neg hnot]
    · simp [if_neg h]

/-! ## C2 theorems: required-file presence -/

/-- The dev-audit loop reports exactly the missing manifest entries and
flags whether any was missing. -/
theorem check_required_files_loop_eq (fs : String → Bool) (files : List String) :
    check_required_files_loop fs files =
      ((files.filter (fun f => !(fs f))).map (fun f => "MISSING: " ++ f),
        files.any (fun f => !(fs f))) := by
  induction files with
  | nil => rfl
  | cons f rest ih =>
    by_cases h : fs f <;> simp [check_required_files_loop, ih, h]

/-- The preflight loop is exactly a first-hit search. -/
theorem preflight_required_loop_eq (fs : String → Bool) (files : List String) :
    preflight_required_loop fs files = files.find? (fun f => !(fs f)) := by
  induction files with
  | nil => rfl
  | cons f rest ih =>
    by_cases h : fs f <;> simp [preflight_required_loop, List.find?, ih, h]

/-- C2 (amended): the dev-audit variant prints a MISSING line for every
one of the N missing manifest entries before failing, and fails with
non-zero exit iff at least one manifest path is not an existing regular
file; the preflight variant also fails iff at least one entry is missing,
but stops at — and names only — the FIRST missing entry. -/
theorem required_files_report_semantics (fs : String → Bool) :
    (check_required_files fs).notes =
        (REQ_FILES.filter (fun f => !(fs f))).map (fun f => "MISSING: " ++ f)
    ∧ ((check_required_files fs).failMsg ≠ none ↔ ∃ f ∈ REQ_FILES, fs f = false)
    ∧ ((preflight_required fs).failMsg ≠ none ↔ ∃ f ∈ PREFLIGHT_REQUIRED, fs f = false)
    ∧ (preflight_required fs).failMsg =
        (PREFLIGHT_REQUIRED.find? (fun f => !(fs f))).map
          (fun f => "Missing required: " ++ f) := by
  refine ⟨?_, ?_, ?_, ?_⟩
  · simp [check_required_files, check_required_files_loop_eq]
  · simp only [check_required_files, check_required_files_loop_eq]
    constructor
    · intro hne
      have hany : REQ_FILES.any (fun f => !(fs f)) = true := by
        by_contra hno
        have hfalse : REQ_FILES.any (fun f => !(fs f)) = false := by
          cases hv : REQ_FILES.any (fun f => !(fs f))
          · rfl
          · exact absurd hv hno
        simp [hfalse] at hne
      rcases List.any_eq_true.mp hany with ⟨f, hf, hff⟩
      refine ⟨f, hf, ?_⟩
      cases hv : fs f
      · rfl
      · simp [hv] at hff
    · rintro ⟨f, hf, hff⟩
      have hany : REQ_FILES.any (fun f => !(fs f)) = true :=
        List.any_eq_true.mpr ⟨f, hf, by simp [hff]⟩
      simp [hany]
  · simp only [preflight_required, preflight_required_loop_eq]
    constructor
    · intro hne
      cases hfind : List.find? (fun f => !(fs f)) PREFLIGHT_REQUIRED with
      | none => simp [hfind] at hne
      | some x =>
        have hx := List.find?_some hfind
        have hmem := List.mem_of_find?_eq_some hfind
        exact ⟨x, hmem, by simpa using hx⟩
    · rintro ⟨f, hf, hff⟩
      cases hfind : List.find? (fun f => !(fs f)) PREFLIGHT_REQUIRED with
      | none =>
        have := List.find?_eq_none.mp hfind f hf
        simp [hff] at this
      | some x => simp [hfind]
  · simp [preflight_required, preflight_required_loop_eq]

/-- C2 witness: with no file present, the dev-audit check prints one
MISSING line per manifest entry (all 22), derived from the general
theorem at a concrete filesystem. -/
theorem required_files_report_semantics_witness :
    (check_required_files (fun _ => false)).notes.length = 22 ∧
    (check_required_files (fun _ => false)).failMsg ≠ none := by
  have h := required_files_report_semantics (fun _ => false)
  refine ⟨by rw [h.1]; decide, h.2.1.mpr ⟨"index.html", by decide, rfl⟩⟩

/-- A filesystem on which exactly robots.txt and sitemap.xml are missing. -/
def fsTwoMissing : String → Bool := fun f => !(f == "robots.txt" || f == "sitemap.xml")

/-- C2 counterexample: with N = 2 missing manifest entries, the preflight
variant's required-file check names only the first (robots.txt): its
output never mentions sitemap.xml, refuting the claim that all N missing
paths are printed before failing. -/
theorem preflight_required_stops_at_first_missing :
    (PREFLIGHT_REQUIRED.filter (fun f => !(fsTwoMissing f))) = ["robots.txt", "sitemap.xml"]
    ∧ preflight_required fsTwoMissing = ⟨[], [], some "Missing required: robots.txt"⟩ := by
  decide

/-! ## C3 theorems: readiness polling -/

/-- Case analysis of the dev-audit readiness loop: starting at attempt
`i` with `r` attempts allowed, either some attempt in the window connects
and the poll succeeds there having slept 0.2s per prior failure, or no
attempt in the window connects and the poll times out after sleeping
0.2s per attempt and printing the log tail. -/
theorem devAuditPollAux_spec (connects : Nat → Bool) :
    ∀ r i, (∃ j, i ≤ j ∧ j < i + r ∧ connects j = true ∧
              devAuditPollAux connects r i = .ready j (2 * (j - i)))
         ∨ ((∀ j, i ≤ j → j < i + r → connects j = false) ∧
              devAuditPollAux connects r i = .timedOut (2 * r) true) := by
  intro r
  induction r with
  | zero => exact fun i => .inr ⟨fun j h1 h2 => absurd (lt_of_le_of_lt h1 h2) (by omega), rfl⟩
  | succ r ih =>
    intro i
    by_cases hc : connects i = true
    · exact .inl ⟨i, le_refl i, by omega, hc, by simp [devAuditPollAux, hc]⟩
    · rcases ih (i + 1) with ⟨j, h1, h2, h3, h4⟩ | ⟨hall, heq⟩
      · refine .inl ⟨j, by omega, by omega, h3, ?_⟩
        have : 2 * (j - (i + 1)) + 2 = 2 * (j - i) := by omega
        simp [devAuditPollAux, hc, h4, this]
      · refine .inr ⟨?_, ?_⟩
        · intro j hj1 hj2
          rcases Nat.eq_or_lt_of_le hj1 with h | h
          · simpa [← h] using eq_false_of_ne_true hc
          · exact hall j h (by omega)
        · have : 2 * r + 2 = 2 * (r + 1) := by omega
          simp [devAuditPollAux, hc, heq, this]

/-- If the current attempt connects, the preflight loop stops at once
with no sleep, whatever budget remains. -/
theorem preflightPollAux_connects (connects : Nat → Bool) (r i : Nat)
    (hc : connects i = true) : preflightPollAux connects r i = .ready i 0 := by
  match r with
  | 0 => simp [preflightPollAux, hc]
  | 1 => simp [preflightPollAux, hc]
  | r + 2 => simp [preflightPollAux, hc]

/-- Case analysis of the preflight readiness loop: with `r ≥ 1` attempts
allowed starting at attempt `i`, either some attempt in the window
connects and the poll succeeds there having slept 0.5s per prior
failure, or all `r` attempts fail and the poll gives up having slept
0.5s per attempt — without printing any log tail. -/
theorem preflightPollAux_spec (connects : Nat → Bool) :
    ∀ r i, 1 ≤ r → (∃ j, i ≤ j ∧ j < i + r ∧ connects j = true ∧
              preflightPollAux connects r i = .ready j (5 * (j - i)))
         ∨ ((∀ j, i ≤ j → j < i + r → connects j = false) ∧
              preflightPollAux connects r i = .timedOut (5 * r) false) := by
  intro r
  induction r with
  | zero => omega
  | succ r ih =>
    intro i _
    by_cases hc : connects i = true
    · exact .inl ⟨i, le_refl i, by omega, hc,
        by simp [preflightPollAux_connects connects (r + 1) i hc]⟩
    · match r, ih with
      | 0, _ =>
        refine .inr ⟨?_, by simp [preflightPollAux, hc]⟩
        intro j hj1 hj2
        have : j = i := by omega
        simpa [this] using eq_false_of_ne_true hc
      | r' + 1, ih =>
        rcases ih (i + 1) (by omega) with ⟨j, h1, h2, h3, h4⟩ | ⟨hall, heq⟩
        · refine .inl ⟨j, by omega, by omega, h3, ?_⟩
          have : 5 * (j - (i + 1)) + 5 = 5 * (j - i) := by omega
          simp [preflightPollAux, hc, h4, this]
        · refine .inr ⟨?_, ?_⟩
          · intro j hj1 hj2
            rcases Nat.eq_or_lt_of_le hj1 with h | h
            · simpa [← h] using eq_false_of_ne_true hc
            · exact hall j h (by omega)
          · have : 5 * (r' + 1) + 5 = 5 * (r' + 2) := by omega
            simp [preflightPollAux, hc, heq, this]

/-- C3 (amended): both readiness polls terminate after a bounded number
of attempts at a fixed short interval.  The dev-audit variant makes a
FIXED 30 attempts at 0.2s (it has no timeout option), so it gives up
after 6.0s of sleep, printing the server log tail before failing.  The
preflight variant makes `timeout` attempts at 0.5s — the loop counter
counts iterations, not seconds — so the total wait before giving up is
HALF the configured timeout in seconds, and it fails without printing
the log tail.  Sleep totals are in deciseconds. -/
theorem readiness_poll_bounded (connects : Nat → Bool) (timeout : Nat)
    (h : 1 ≤ timeout) :
    ((∃ j, 1 ≤ j ∧ j ≤ 30 ∧ connects j = true ∧
        devAuditPoll connects = .ready j (2 * (j - 1)))
      ∨ ((∀ j, 1 ≤ j → j ≤ 30 → connects j = false) ∧
        devAuditPoll connects = .timedOut 60 true))
    ∧ ((∃ j, 1 ≤ j ∧ j ≤ timeout ∧ connects j = true ∧
        preflightPoll connects timeout = .ready j (5 * (j - 1)))
      ∨ ((∀ j, 1 ≤ j → j ≤ timeout → connects j = false) ∧
        preflightPoll connects timeout = .timedOut (5 * timeout) false)) := by
  constructor
  · rcases devAuditPollAux_spec connects 30 1 with ⟨j, h1, h2, h3, h4⟩ | ⟨hall, heq⟩
    · exact .inl ⟨j, h1, by omega, h3, h4⟩
    · exact .inr ⟨fun j hj1 hj2 => hall j hj1 (by omega), heq⟩
  · rcases preflightPollAux_spec connects timeout 1 h with ⟨j, h1, h2, h3, h4⟩ | ⟨hall, heq⟩
    · exact .inl ⟨j, h1, by omega, h3, h4⟩
    · exact .inr ⟨fun j hj1 hj2 => hall j hj1 (by omega), heq⟩

/-- A server that first answers on the third poll attempt. -/
def connectsAtThree : Nat → Bool := fun i => i == 3

/-- C3 witness: the bounded-poll theorem applied at a concrete server
that becomes reachable at attempt 3, with the configured timeout 12. -/
theorem readiness_poll_bounded_witness :
    ((∃ j, 1 ≤ j ∧ j ≤ 30 ∧ connectsAtThree j = true ∧
        devAuditPoll connectsAtThree = .ready j (2 * (j - 1)))
      ∨ ((∀ j, 1 ≤ j → j ≤ 30 → connectsAtThree j = false) ∧
        devAuditPoll connectsAtThree = .timedOut 60 true))
    ∧ ((∃ j, 1 ≤ j ∧ j ≤ 12 ∧ connectsAtThree j = true ∧
        preflightPoll connectsAtThree 12 = .ready j (5 * (j - 1)))
      ∨ ((∀ j, 1 ≤ j → j ≤ 12 → connectsAtThree j = false) ∧
        preflightPoll connectsAtThree 12 = .timedOut 60 false)) :=
  readiness_poll_bounded connectsAtThree 12 (by decide)

/-- C3 counterexample: with the default configured timeout of 12
seconds and a server that never answers, the preflight poll gives up
after only 60 deciseconds (6.0s) of sleep — not the 120 deciseconds the
claim's total-wait-equals-timeout reading requires — and prints no log
tail. -/
theorem preflight_poll_waits_half_the_timeout :
    preflightPoll (fun _ => false) 12 = PollResult.timedOut 60 false
    ∧ (60 : Nat) ≠ 10 * 12 := by
  exact ⟨by decide, by decide⟩

/-! ## C5 and C10 theorems: argument parsing -/

/-- Predicate: `u` is not one of the arguments dev-audit.sh recognizes. -/
abbrev devAuditUnknownArg (u : String) : Prop :=
  u ≠ "--audit" ∧ u ≠ "--dev" ∧ u ≠ "--port" ∧ u ≠ "--yes" ∧ u ≠ "--no-dev" ∧
    u ≠ "-h" ∧ u ≠ "--help"

/-- Predicate: `u` is not one of the arguments preflight.sh recognizes. -/
abbrev preflightUnknownArg (u : String) : Prop :=
  u ≠ "--audit" ∧ u ≠ "--dev" ∧ u ≠ "--port" ∧ u ≠ "--logs" ∧ u ≠ "--timeout" ∧
    u ≠ "--help"

/-- Argument prefixes that the dev-audit parser consumes without exiting:
simple recognized flags and `--port` with a value. -/
inductive DevAuditBenign : List String → Prop
  | nil : DevAuditBenign []
  | flag (a : String) (rest : List String)
      (h : a = "--audit" ∨ a = "--dev" ∨ a = "--yes" ∨ a = "--no-dev")
      (hr : DevAuditBenign rest) : DevAuditBenign (a :: rest)
  | port (v : String) (rest : List String) (hr : DevAuditBenign rest) :
      DevAuditBenign ("--port" :: v :: rest)

/-- Argument prefixes that the preflight parser consumes without exiting:
simple recognized flags and `--port`/`--timeout` with a value. -/
inductive PreflightBenign : List String → Prop
  | nil : PreflightBenign []
  | flag (a : String) (rest : List String)
      (h : a = "--audit" ∨ a = "--dev" ∨ a = "--logs")
      (hr : PreflightBenign rest) : PreflightBenign (a :: rest)
  | pair (a v : String) (rest : List String) (h : a = "--port" ∨ a = "--timeout")
      (hr : PreflightBenign rest) : PreflightBenign (a :: v :: rest)

/-- After any benign prefix, the dev-audit parser hits the unknown
argument and exits 1 printing only the FAIL line — no usage text. -/
theorem devAuditParse_unknown (u : String) (hu : devAuditUnknownArg u) :
    ∀ pre, DevAuditBenign pre → ∀ rest mode port yes noDev,
      devAuditParse mode port yes noDev (pre ++ u :: rest) =
        .exited 1 ["FAIL Unknown arg: " ++ u] := by
  obtain ⟨h1, h2, h3, h4, h5, h6, h7⟩ := hu
  intro pre hpre
  induction hpre with
  | nil =>
    intro rest mode port yes noDev
    rw [List.nil_append, devAuditParse.eq_def]
    simp only [if_neg h1, if_neg h2, if_neg h3, if_neg h4, if_neg h5,
      if_neg (show ¬(u = "-h" ∨ u = "--help") from fun x => x.elim h6 h7)]
  | flag a rest' h hr ih =>
    intro rest mode port yes noDev
    rcases h with h | h | h | h <;> subst h <;>
      (rw [devAuditParse.eq_def]; simp [ih])
  | port v rest' hr ih =>
    intro rest mode port yes noDev
    rw [devAuditParse.eq_def]; simp [ih]

/-- After any benign prefix, the preflight parser hits the unknown
argument and exits 1 printing the unknown-arg line followed by the usage
text. -/
theorem preflightParse_unknown (u : String) (hu : preflightUnknownArg u) :
    ∀ pre, PreflightBenign pre → ∀ rest mode port showLogs timeout,
      preflightParse mode port showLogs timeout (pre ++ u :: rest) =
        .exited 1 (("Unknown arg: " ++ u) :: preflightUsage) := by
  obtain ⟨h1, h2, h3, h4, h5, h6⟩ := hu
  intro pre hpre
  induction hpre with
  | nil =>
    intro rest mode port showLogs timeout
    rw [List.nil_append, preflightParse.eq_def]
    simp only [if_neg h1, if_neg h2, if_neg h3, if_neg h4, if_neg h5, if_neg h6]
  | flag a rest' h hr ih =>
    intro rest mode port showLogs timeout
    rcases h with h | h | h <;> subst h <;>
      (rw [preflightParse.eq_def]; simp [ih])
  | pair a v rest' h hr ih =>
    intro rest mode port showLogs timeout
    rcases h with h | h <;> subst h <;>
      (rw [preflightParse.eq_def]; simp [ih])

/-- C5 (amended): for every argument list made of recognized flags
followed by an unrecognized flag, both variants exit with status 1,
execute no check and spawn no server; the preflight variant prints an
unknown-arg line followed by the usage text, while the dev-audit variant
prints ONLY a FAIL unknown-arg line and no usage text. -/
theorem unknown_flag_rejected :
    (∀ u pre rest w, devAuditUnknownArg u → DevAuditBenign pre →
      devAuditMain (pre ++ u :: rest) w =
        ⟨["FAIL Unknown arg: " ++ u], some 1, false, [], false⟩)
    ∧ (∀ u pre rest w, preflightUnknownArg u → PreflightBenign pre →
      preflightMain (pre ++ u :: rest) w =
        ⟨("Unknown arg: " ++ u) :: preflightUsage, some 1, false, [], false⟩) := by
  constructor
  · intro u pre rest w hu hpre
    simp [devAuditMain, devAuditParse_unknown u hu pre hpre rest]
  · intro u pre rest w hu hpre
    simp [preflightMain, preflightParse_unknown u hu pre hpre rest]

/-- A world in which nothing exists and nothing responds; parser-exit
paths never look at it. -/
def w0 : World :=
  ⟨[], fun _ => false, false, false, some [], fun _ => false, fun _ => 0⟩

/-- C5 witness: the rejection theorem applied at the concrete invocation
`--dev --bogus`. -/
theorem unknown_flag_rejected_witness :
    devAuditMain ["--dev", "--bogus"] w0 =
      ⟨["FAIL Unknown arg: --bogus"], some 1, false, [], false⟩
    ∧ preflightMain ["--dev", "--bogus"] w0 =
      ⟨("Unknown arg: --bogus") :: preflightUsage, some 1, false, [], false⟩ :=
  ⟨unknown_flag_rejected.1 "--bogus" ["--dev"] [] w0 (by decide)
      (DevAuditBenign.flag "--dev" [] (Or.inr (Or.inl rfl)) DevAuditBenign.nil),
   unknown_flag_rejected.2 "--bogus" ["--dev"] [] w0 (by decide)
      (PreflightBenign.flag "--dev" [] (Or.inr (Or.inl rfl)) PreflightBenign.nil)⟩

/-- C5 counterexample: on an unrecognized flag the dev-audit variant
prints only the FAIL line — its output does not include the usage text
the claim requires (the usage header shown is what `--help` would
print). -/
theorem devaudit_unknown_flag_prints_no_usage :
    devAuditMain ["--bogus"] w0 =
      ⟨["FAIL Unknown arg: --bogus"], some 1, false, [], false⟩
    ∧ devAuditUsage.head? =
      some "Usage: bash scripts/dev-audit.sh [--audit|--dev] [--port 3000] [--yes] [--no-dev]"
    ∧ "Usage: bash scripts/dev-audit.sh [--audit|--dev] [--port 3000] [--yes] [--no-dev]"
        ∉ (devAuditMain ["--bogus"] w0).out := by
  refine ⟨by decide, by decide, by decide⟩

/-- C10 (amended): when `--port` is the final argument, `PORT="${2:-}"`
does set PORT to the empty string, but the case arm's `shift` empties the
argument list and the loop's trailing `shift` then fails; under `set -e`
the script exits with status 1 before any check runs — with no usage
message, no check execution and no server spawn.  It does not proceed
into check execution. -/
theorem port_without_value_aborts (mode port yes noDev : String) (w : World) :
    devAuditParse mode port yes noDev ["--port"] = .exited 1 []
    ∧ devAuditMain ["--port"] w = ⟨[], some 1, false, [], false⟩ := by
  constructor
  · simp [devAuditParse.eq_def]
  · rfl

/-- C10 witness: the abort theorem applied at the default parser state
and the empty world. -/
theorem port_without_value_aborts_witness :
    devAuditParse "audit" "3000" "0" "0" ["--port"] = .exited 1 []
    ∧ devAuditMain ["--port"] w0 = ⟨[], some 1, false, [], false⟩ :=
  port_without_value_aborts "audit" "3000" "0" "0" w0

/-- C10 counterexample: with `--port` as the final argument the run
exits with status 1 and never reaches check execution, refuting the
claim that the tool proceeds into the checks with an empty port. -/
theorem port_without_value_runs_no_checks :
    (devAuditMain ["--port"] w0).exitCode = some 1
    ∧ (devAuditMain ["--port"] w0).checksRun = false
    ∧ (devAuditMain ["--port"] w0).out = [] := by decide

/-! ## C6 theorems: internal reference resolution -/

/-- The dev-audit refs loop reports exactly the unresolved references and
flags whether any was unresolved. -/
theorem check_internal_refs_loop_eq (fs : String → Bool) (refs : List String) :
    check_internal_refs_loop fs refs =
      ((refs.filter (fun r => !(fs ("." ++ r)))).map
          (fun r => "BROKEN: " ++ r ++ " (missing ." ++ r ++ ")"),
        refs.any (fun r => !(fs ("." ++ r)))) := by
  induction refs with
  | nil => rfl
  | cons r rest ih =>
    by_cases h : fs ("." ++ r) <;> simp [check_internal_refs_loop, ih, h]

/-- The preflight refs loop is exactly a first-hit search. -/
theorem preflight_refs_loop_eq (fs : String → Bool) (refs : List String) :
    preflight_refs_loop fs refs = refs.find? (fun r => !(fs ("." ++ r))) := by
  induction refs with
  | nil => rfl
  | cons r rest ih =>
    by_cases h : fs ("." ++ r) <;> simp [preflight_refs_loop, List.find?, ih, h]

/-- C6 (amended): when the main document contains at least one absolute
href/src reference, the dev-audit variant collects a BROKEN line naming
every reference that does not resolve to an existing file under the site
root, all reported together before the single failure, and the check
fails iff at least one reference is unresolved, while the preflight
variant fails at the FIRST unresolved reference (in sorted order) and
names only that one; when the document contains no absolute reference at
all, the extraction `grep` exits non-zero and, under pipefail, both
scripts abort silently with status 1 before any resolution test. -/
theorem internal_refs_report_semantics (doc : List String) (fs : String → Bool) :
    (extractRefs doc = [] →
      check_internal_refs doc fs = .abortPipe []
      ∧ preflight_internal_refs doc fs = .abortPipe [])
    ∧ (extractRefs doc ≠ [] →
      check_internal_refs doc fs = CheckResult.done
          ⟨((extractRefs doc).filter (fun r => !(fs ("." ++ r)))).map
              (fun r => "BROKEN: " ++ r ++ " (missing ." ++ r ++ ")"),
            [],
            if (extractRefs doc).any (fun r => !(fs ("." ++ r))) then
              some "Broken internal asset references (see above)"
            else none⟩
      ∧ ((extractRefs doc).any (fun r => !(fs ("." ++ r))) = true ↔
          ∃ r ∈ extractRefs doc, fs ("." ++ r) = false)
      ∧ preflight_internal_refs doc fs = CheckResult.done
          ⟨[], [], ((extractRefs doc).find? (fun r => !(fs ("." ++ r)))).map
              (fun r => "Broken ref: " ++ r)⟩)
    ∧ (∀ r ∈ extractRefs doc, fs ("." ++ r) = false →
        ∃ c, check_internal_refs doc fs = CheckResult.done c
          ∧ ("BROKEN: " ++ r ++ " (missing ." ++ r ++ ")") ∈ c.notes) := by
  refine ⟨?_, ?_, ?_⟩
  · intro h
    exact ⟨by simp [check_internal_refs, h], by simp [preflight_internal_refs, h]⟩
  · intro h
    refine ⟨?_, ?_, ?_⟩
    · simp [check_internal_refs, h, check_internal_refs_loop_eq]
    · constructor
      · intro hany
        rcases List.any_eq_true.mp hany with ⟨r, hr, hrr⟩
        refine ⟨r, hr, ?_⟩
        cases hv : fs ("." ++ r)
        · rfl
        · simp [hv] at hrr
      · rintro ⟨r, hr, hrr⟩
        exact List.any_eq_true.mpr ⟨r, hr, by simp [hrr]⟩
    · simp [preflight_internal_refs, h, preflight_refs_loop_eq]
  · intro r hr hrr
    have hne : extractRefs doc ≠ [] := by
      intro h0
      rw [h0] at hr
      exact absurd hr (List.not_mem_nil r)
    refine ⟨⟨((extractRefs doc).filter (fun r => !(fs ("." ++ r)))).map
        (fun r => "BROKEN: " ++ r ++ " (missing ." ++ r ++ ")"), [],
        if (extractRefs doc).any (fun r => !(fs ("." ++ r))) then
          some "Broken internal asset references (see above)"
        else none⟩, ?_, ?_⟩
    · simp [check_internal_refs, hne, check_internal_refs_loop_eq]
    · exact List.mem_map.mpr ⟨r, List.mem_filter.mpr ⟨hr, by simp [hrr]⟩, rfl⟩

/-- A document with two absolute references, to /a.css and /b.js. -/
def refsDoc : List String := ["<a href=\"/a.css\"><img src=\"/b.js\">"]

/-- C6 witness: the reporting theorem applied at the two-reference
document over an empty filesystem (the BROKEN line naming /a.css is in
the collected output of a completed check) and at a reference-free
document (where the extraction pipeline aborts the script). -/
theorem internal_refs_report_semantics_witness :
    (∃ c, check_internal_refs refsDoc (fun _ => false) = CheckResult.done c
       ∧ "BROKEN: /a.css (missing ./a.css)" ∈ c.notes)
    ∧ check_internal_refs ["<p>no refs</p>"] (fun _ => false) = .abortPipe [] :=
  ⟨(internal_refs_report_semantics refsDoc (fun _ => false)).2.2
      "/a.css" (by decide) rfl,
   ((internal_refs_report_semantics ["<p>no refs</p>"] (fun _ => false)).1 (by decide)).1⟩

/-- C6 counterexample: with both extracted references broken, the
preflight variant reports only the first ("/a.css"): its output never
names "/b.js", refuting the collect-all-then-fail part of the claim for
this variant. -/
theorem preflight_refs_stop_at_first_broken :
    extractRefs refsDoc = ["/a.css", "/b.js"]
    ∧ preflight_internal_refs refsDoc (fun _ => false) =
        CheckResult.done ⟨[], [], some "Broken ref: /a.css"⟩ := by decide

/-! ## C7 theorems: SEO baseline -/

/-- A line with a full title pair contains the title-open pattern. -/
theorem lineTitlePair_contains (l : String) (h : lineTitlePair l = true) :
    containsCI "<title>" l = true := by
  unfold lineTitlePair at h
  unfold containsCI
  rcases List.any_eq_true.mp h with ⟨i, hi, hpair⟩
  rw [Bool.and_eq_true] at hpair
  exact List.any_eq_true.mpr ⟨i, hi, hpair.1⟩

/-- C7 (amended): both variants' SEO checks fail fatally when the main
document lacks a title tag.  For a document missing only the canonical
link (title pair, description, robots, Open Graph, Twitter card and
JSON-LD all present), the dev-audit variant passes overall while emitting
exactly the missing-canonical warning; the preflight variant also passes
but emits NO warning, because it checks only title and description. -/
theorem seo_title_required_canonical_warns (doc : List String) :
    (grepQI "<title>" doc = false →
      (check_seo_basics doc).failMsg = some "Missing <title>"
      ∧ (preflight_seo doc).failMsg = some "Missing <title>")
    ∧ (doc.any lineTitlePair = true →
       grepQI "meta name=\"description\"" doc = true →
       grepQI "rel=\"canonical\"" doc = false →
       grepQI "meta name=\"robots\"" doc = true →
       grepQI "property=\"og:title\"" doc = true →
       grepQI "property=\"og:description\"" doc = true →
       grepQI "property=\"og:image\"" doc = true →
       grepQI "name=\"twitter:card\"" doc = true →
       grepQI "application/ld+json" doc = true →
         check_seo_basics doc = ⟨[], ["Missing canonical link"], none⟩
         ∧ preflight_seo doc = ⟨[], [], none⟩) := by
  constructor
  · intro hno
    have hnopair : doc.any lineTitlePair = false := by
      cases hv : doc.any lineTitlePair
      · rfl
      · rcases List.any_eq_true.mp hv with ⟨l, hl, hpair⟩
        have := List.any_eq_true.mpr ⟨l, hl, lineTitlePair_contains l hpair⟩
        rw [show (doc.any fun l => containsCI "<title>" l) = grepQI "<title>" doc from rfl]
          at this
        rw [hno] at this
        exact absurd this (by simp)
    exact ⟨by simp [check_seo_basics, hnopair], by simp [preflight_seo, hno]⟩
  · intro hpair hdesc hcanon hrobots hogt hogd hogi htw hld
    have htitle : grepQI "<title>" doc = true := by
      rcases List.any_eq_true.mp hpair with ⟨l, hl, hp⟩
      exact List.any_eq_true.mpr ⟨l, hl, lineTitlePair_contains l hp⟩
    constructor
    · simp [check_seo_basics, hpair, hdesc, hcanon, hrobots, hogt, hogd, hogi, htw, hld]
    · simp [preflight_seo, htitle, hdesc]

/-- A main document with title, description, robots, Open Graph, Twitter
card and JSON-LD present, but no canonical link. -/
def seoDocNoCanonical : List String :=
  ["<title>Jeffrey Plewak</title>",
   "<meta name=\"description\" content=\"portfolio\">",
   "<meta name=\"robots\" content=\"index\">",
   "<meta property=\"og:title\" content=\"t\">",
   "<meta property=\"og:description\" content=\"d\">",
   "<meta property=\"og:image\" content=\"i\">",
   "<meta name=\"twitter:card\" content=\"summary\">",
   "<script type=\"application/ld+json\"></script>"]

/-- C7 witness: the SEO theorem applied at the concrete
canonical-less document. -/
theorem seo_title_required_canonical_warns_witness :
    check_seo_basics seoDocNoCanonical = ⟨[], ["Missing canonical link"], none⟩
    ∧ preflight_seo seoDocNoCanonical = ⟨[], [], none⟩ :=
  (seo_title_required_canonical_warns seoDocNoCanonical).2
    (by decide) (by decide) (by decide) (by decide) (by decide)
    (by decide) (by decide) (by decide) (by decide)

/-- C7 counterexample: on a document missing only the canonical link the
preflight variant's SEO check passes with NO warning at all, refuting the
claim that a missing-canonical warning is emitted. -/
theorem preflight_seo_silent_on_missing_canonical :
    grepQI "rel=\"canonical\"" seoDocNoCanonical = false
    ∧ preflight_seo seoDocNoCanonical = ⟨[], [], none⟩
    ∧ (preflight_seo seoDocNoCanonical).warnings = [] := by decide

/-! ## C8 theorems: server tool selection -/

/-- Sequencing a check never touches the spawned-tool list. -/
theorem andCheck_spawnedTools (t : RunTrace) (c : CheckOut) :
    (t.andCheck c).spawnedTools = t.spawnedTools := by
  unfold RunTrace.andCheck
  by_cases h : t.exitCode.isSome
  · simp [h]
  · cases hc : c.failMsg <;> simp [h, hc]

/-- Sequencing a check never attempts smoke tests. -/
theorem andCheck_smokeAttempted (t : RunTrace) (c : CheckOut) :
    (t.andCheck c).smokeAttempted = t.smokeAttempted := by
  unfold RunTrace.andCheck
  by_cases h : t.exitCode.isSome
  · simp [h]
  · cases hc : c.failMsg <;> simp [h, hc]

/-- Sequencing a possibly-aborting check never touches the spawned-tool
list either. -/
theorem andCheckR_spawnedTools (t : RunTrace) (c : CheckResult) :
    (t.andCheckR c).spawnedTools = t.spawnedTools := by
  unfold RunTrace.andCheckR
  by_cases h : t.exitCode.isSome
  · simp [h]
  · cases c with
    | done c => simp [h, andCheck_spawnedTools]
    | abortPipe printed => simp [h]

/-- The check stage of either variant spawns nothing. -/
theorem checksTrace_spawnedTools (w : World) :
    (devAuditChecksTrace w).spawnedTools = []
    ∧ (preflightChecksTrace w).spawnedTools = [] := by
  constructor
  · simp [devAuditChecksTrace, andCheck_spawnedTools, andCheckR_spawnedTools, trace0]
  · simp [preflightChecksTrace, andCheck_spawnedTools, andCheckR_spawnedTools, trace0]

/-- The dev phase of dev-audit.sh spawns the first available tool from
the ordered chain, or nothing. -/
theorem devAuditDevPhase_spawn (w : World) (port noDev : String) (t : RunTrace) :
    (devAuditDevPhase w port noDev t).spawnedTools = t.spawnedTools
    ∨ ((devAuditDevPhase w port noDev t).spawnedTools = t.spawnedTools ++ ["vercel"]
        ∧ w.vercel = true)
    ∨ ((devAuditDevPhase w port noDev t).spawnedTools = t.spawnedTools ++ ["python3"]
        ∧ w.vercel = false ∧ w.python3 = true) := by
  unfold devAuditDevPhase devAuditStartTool
  by_cases hnd : noDev = "1"
  · simp [hnd]
  · by_cases hv : w.vercel
    · exact .inr (.inl ⟨by simp [hnd, hv], hv⟩)
    · by_cases hpy : w.python3
      · exact .inr (.inr ⟨by simp [hnd, hv, hpy], by simpa using hv, hpy⟩)
      · exact .inl (by simp [hnd, hv, hpy])

/-- The dev phase of preflight.sh spawns the first available tool from
the ordered chain, or nothing. -/
theorem preflightDevPhase_spawn (w : World) (timeout : Nat) (t : RunTrace) :
    (preflightDevPhase w timeout t).spawnedTools = t.spawnedTools
    ∨ ((preflightDevPhase w timeout t).spawnedTools = t.spawnedTools ++ ["vercel"]
        ∧ w.vercel = true)
    ∨ ((preflightDevPhase w timeout t).spawnedTools = t.spawnedTools ++ ["python3"]
        ∧ w.vercel = false ∧ w.python3 = true) := by
  unfold preflightDevPhase preflightStartTool
  by_cases hv : w.vercel
  · exact .inr (.inl ⟨by simp [hv], hv⟩)
  · by_cases hpy : w.python3
    · exact .inr (.inr ⟨by simp [hv, hpy], by simpa using hv, hpy⟩)
    · exact .inl (by simp [hv, hpy])

/-- C8: across every whole run of either variant, at most one server
tool is spawned — Vercel CLI when available, else python3 http.server,
never both; and when neither tool is available, the dev phase prints the
variant's no-server-tool message and exits with status 1 without
attempting any smoke test and without spawning anything. -/
theorem server_tool_first_available :
    (∀ args w, (devAuditMain args w).spawnedTools = []
      ∨ ((devAuditMain args w).spawnedTools = ["vercel"] ∧ w.vercel = true)
      ∨ ((devAuditMain args w).spawnedTools = ["python3"]
          ∧ w.vercel = false ∧ w.python3 = true))
    ∧ (∀ args w, (preflightMain args w).spawnedTools = []
      ∨ ((preflightMain args w).spawnedTools = ["vercel"] ∧ w.vercel = true)
      ∨ ((preflightMain args w).spawnedTools = ["python3"]
          ∧ w.vercel = false ∧ w.python3 = true))
    ∧ (∀ w t, w.vercel = false → w.python3 = false →
        devAuditDevPhase w "3000" "0" t =
          { t with
            out := t.out ++ ["FAIL Neither vercel nor python3 available to run a local server."],
            exitCode := some 1 }
        ∧ ∀ timeout, preflightDevPhase w timeout t =
          { t with
            out := t.out ++ ["FAIL No server tool (vercel or python3) found"],
            exitCode := some 1 }) := by
  refine ⟨?_, ?_, ?_⟩
  · intro args w
    unfold devAuditMain
    cases hp : devAuditParse "audit" "3000" "0" "0" args with
    | exited c o => exact .inl rfl
    | config mode port flagA noDev =>
      unfold devAuditAfterParse
      by_cases hidx : w.fs "index.html"
      · by_cases hex : (devAuditChecksTrace w).exitCode.isSome
        · simp [hidx, hex, (checksTrace_spawnedTools w).1]
        · by_cases hmode : mode = "dev"
          · have hspawn := (checksTrace_spawnedTools w).1
            rcases devAuditDevPhase_spawn w port noDev (devAuditChecksTrace w) with
              h | ⟨h, hv⟩ | ⟨h, hv, hpy⟩
            · exact .inl (by simp [hidx, hex, hmode, h, hspawn])
            · exact .inr (.inl ⟨by simp [hidx, hex, hmode, h, hspawn], hv⟩)
            · exact .inr (.inr ⟨by simp [hidx, hex, hmode, h, hspawn], hv, hpy⟩)
          · simp [hidx, hex, hmode, (checksTrace_spawnedTools w).1]
      · simp [hidx]
  · intro args w
    unfold preflightMain
    cases hp : preflightParse "audit" "3000" "0" "12" args with
    | exited c o => exact .inl rfl
    | config mode port flagA timeoutStr =>
      unfold preflightAfterParse
      by_cases hex : (preflightChecksTrace w).exitCode.isSome
      · simp [hex, (checksTrace_spawnedTools w).2]
      · by_cases hmode : mode = "dev"
        · have hspawn := (checksTrace_spawnedTools w).2
          rcases preflightDevPhase_spawn w (timeoutStr.toNat?.getD 0)
              (preflightChecksTrace w) with h | ⟨h, hv⟩ | ⟨h, hv, hpy⟩
          · exact .inl (by simp [hex, hmode, h, hspawn])
          · exact .inr (.inl ⟨by simp [hex, hmode, h, hspawn], hv⟩)
          · exact .inr (.inr ⟨by simp [hex, hmode, h, hspawn], hv, hpy⟩)
        · simp [hex, hmode, (checksTrace_spawnedTools w).2]
  · intro w t hv hpy
    constructor
    · unfold devAuditDevPhase devAuditStartTool
      simp [hv, hpy]
    · intro timeout
      unfold preflightDevPhase preflightStartTool
      simp [hv, hpy]

/-- A world in which neither server tool is available but every file
exists and the site is healthy. -/
def noToolsWorld : World :=
  ⟨[], fun _ => true, false, false, some [], fun _ => false, fun _ => 0⟩

/-- C8 witness: with neither tool available, the dev phase of both
variants (started from the empty trace) fails with the no-server-tool
message, exit status 1, nothing spawned, no smoke tests. -/
theorem server_tool_first_available_witness :
    devAuditDevPhase noToolsWorld "3000" "0" trace0 =
      ⟨["FAIL Neither vercel nor python3 available to run a local server."],
        some 1, false, [], false⟩
    ∧ preflightDevPhase noToolsWorld 12 trace0 =
      ⟨["FAIL No server tool (vercel or python3) found"], some 1, false, [], false⟩ := by
  have h := server_tool_first_available.2.2 noToolsWorld trace0 rfl rfl
  exact ⟨h.1, h.2 12⟩

/-! ## C9 theorems: readiness is status-blind, but no run reaches it -/

/-- A healthy main document for end-to-end runs: passes every fatal
check of both variants, contains an absolute reference (so the ref
extraction pipeline succeeds) and an `<h1>` (so the a11y count pipeline
succeeds). -/
def goodIndex : List String :=
  ["<!doctype html>",
   "<html lang=\"en\">",
   "<title>Jeffrey Plewak</title>",
   "<link rel=\"stylesheet\" href=\"/css/base.css\">",
   "<meta name=\"description\" content=\"portfolio\">",
   "<meta name=\"robots\" content=\"index\">",
   "<meta property=\"og:title\" content=\"t\">",
   "<meta property=\"og:description\" content=\"d\">",
   "<meta property=\"og:image\" content=\"i\">",
   "<meta name=\"twitter:card\" content=\"summary\">",
   "<script type=\"application/ld+json\"></script>",
   "<h1>Hi</h1>",
   "</html>"]

/-- A world whose site is healthy, whose server tools exist, and whose
server completes every HTTP request — with status 500.  Since `curl`
without `--fail` exits 0 on ANY completed HTTP response, every poll
attempt connects (`connects` is true) even though the status is an
error. -/
def all500World : World :=
  ⟨goodIndex, fun _ => true, true, true, some [], fun _ => true, fun _ => 500⟩

/-- C9 (amended): the readiness-poll code of both variants depends only
on whether each attempt completes at the connection level, never on the
HTTP status — a server answering 500 to everything counts as responsive
on the first attempt — and the smoke-test code is the first place any
status code is compared (its 200 test rejects the 500 on the first
path).  But no run reaches either stage: in both variants, immediately
after the spawn subshell the statement `DEV_PID=$!` aborts the script
under `set -u`, so every dev-mode run that spawns a server exits with
status 1 before the first poll attempt and never runs a smoke test. -/
theorem readiness_ignores_status :
    (∀ b1 b2 : Nat → Option Nat, (∀ i, (b1 i).isSome = (b2 i).isSome) →
      devAuditPoll (fun i => (b1 i).isSome) = devAuditPoll (fun i => (b2 i).isSome)
      ∧ ∀ timeout, preflightPoll (fun i => (b1 i).isSome) timeout
          = preflightPoll (fun i => (b2 i).isSome) timeout)
    ∧ devAuditPoll all500World.connects = .ready 1 0
    ∧ (smoke_test_endpoints all500World.status devAuditSmokePaths).2 =
        some "Smoke test failed for / (HTTP 500)"
    ∧ (∀ (w : World) (t : RunTrace) (port noDev tool : String),
        devAuditStartTool noDev w.vercel w.python3 = .spawned tool →
        devAuditDevPhase w port noDev t =
          { t with spawnedTools := t.spawnedTools ++ [tool], exitCode := some 1 })
    ∧ (∀ (w : World) (t : RunTrace) (timeout : Nat) (tool : String),
        preflightStartTool w.vercel w.python3 = .spawned tool →
        preflightDevPhase w timeout t =
          { t with spawnedTools := t.spawnedTools ++ [tool], exitCode := some 1 }) := by
  refine ⟨?_, by decide, by decide, ?_, ?_⟩
  · intro b1 b2 h
    have hfun : (fun i => (b1 i).isSome) = (fun i => (b2 i).isSome) := funext h
    exact ⟨by rw [hfun], fun timeout => by rw [hfun]⟩
  · intro w t port noDev tool hsp
    unfold devAuditDevPhase
    rw [hsp]
  · intro w t timeout tool hsp
    unfold preflightDevPhase
    rw [hsp]

/-- A server behavior answering every request with HTTP 500. -/
def behav500 : Nat → Option Nat := fun _ => some 500

/-- A server behavior answering every request with HTTP 200. -/
def behav200 : Nat → Option Nat := fun _ => some 200

/-- C9 witness: the theorem applied at the all-500 and all-200 behaviors
(which connect identically), and at the all-500 world's dev phase, where
the spawn is immediately followed by the abort. -/
theorem readiness_ignores_status_witness :
    devAuditPoll (fun i => (behav500 i).isSome) = devAuditPoll (fun i => (behav200 i).isSome)
    ∧ preflightPoll (fun i => (behav500 i).isSome) 12
        = preflightPoll (fun i => (behav200 i).isSome) 12
    ∧ devAuditDevPhase all500World "3000" "0" trace0 =
        ⟨[], some 1, false, ["vercel"], false⟩ :=
  ⟨(readiness_ignores_status.1 behav500 behav200 (fun _ => rfl)).1,
   (readiness_ignores_status.1 behav500 behav200 (fun _ => rfl)).2 12,
   readiness_ignores_status.2.2.2.1 all500World trace0 "3000" "0" "vercel" (by decide)⟩

/-- C9 counterexample: a full dev-mode run against a healthy site and a
server answering 500 to everything spawns the server and exits with
status 1 at `DEV_PID=$!`: no smoke test is attempted, refuting the
claim that the run proceeds to the smoke-test stage. -/
theorem devaudit_dev_run_dies_before_smoke :
    (devAuditMain ["--dev"] all500World).spawnedTools = ["vercel"]
    ∧ (devAuditMain ["--dev"] all500World).exitCode = some 1
    ∧ (devAuditMain ["--dev"] all500World).smokeAttempted = false
    ∧ all500World.status "/" = 500 := by decide
